import Mathlib

/-!
Shallow embedding of the ChimeraPy Worker control-plane code
(`src/chimerapy/engine/states.py`, `src/chimerapy/engine/worker/http_server_service.py`,
`src/chimerapy/service.py`, `src/chimerapy/entry/worker.py`).

Python dictionaries are modelled as association lists in insertion order
(keys unique in any dict the program builds); asynchronous handlers are
modelled as pure functions from the worker state and the parsed request to
a `HandlerOut` recording the post-state, the events awaited on the event
bus in dispatch order, the events scheduled as background tasks (dispatched
via `asyncio.create_task`, never awaited by the handler), and the HTTP
response.  Event payloads are identified by the event's type string, which
is all the properties below inspect.  Filesystem and socket effects
(`sys.path` insertion, pickling, logging) are outside the state the claims
speak about and are not recorded.
-/

namespace ChimeraPy

/-- Lookup in a Python-dict-as-association-list: first binding of the key. -/
def alookup {β : Type} : List (String × β) → String → Option β
  | [], _ => none
  | (k, v) :: rest, key => if k = key then some v else alookup rest key

/-- `d[key] = v` for a key already present: replace the value in place,
keeping insertion order (CPython dict update semantics). -/
def asetExisting {β : Type} (l : List (String × β)) (key : String) (v : β) :
    List (String × β) :=
  l.map (fun p => if p.1 = key then (key, v) else p)

theorem alookup_asetExisting_eq {β : Type} (l : List (String × β)) (key : String) (v : β) :
    alookup (asetExisting l key v) key = (alookup l key).map (fun _ => v) := by
  induction l with
  | nil => rfl
  | cons p rest ih =>
    obtain ⟨a, b⟩ := p
    by_cases h : a = key
    · rw [asetExisting, List.map_cons, if_pos h]
      simp [alookup, h]
    · rw [asetExisting, List.map_cons, if_neg h]
      simp only [alookup, if_neg h]
      exact ih

theorem alookup_asetExisting_ne {β : Type} (l : List (String × β)) (key k : String)
    (v : β) (h : k ≠ key) :
    alookup (asetExisting l key v) k = alookup l k := by
  induction l with
  | nil => rfl
  | cons p rest ih =>
    obtain ⟨a, b⟩ := p
    by_cases hp : a = key
    · rw [asetExisting, List.map_cons, if_pos hp]
      have hk : ¬ key = k := fun hkk => h hkk.symm
      have ha : ¬ a = k := fun hak => h (hp ▸ hak).symm
      simp only [alookup, if_neg hk, if_neg ha]
      exact ih
    · rw [asetExisting, List.map_cons, if_neg hp]
      by_cases hk : a = k
      · simp only [alookup, if_pos hk]
      · simp only [alookup, if_neg hk]
        exact ih

theorem keys_asetExisting {β : Type} (l : List (String × β)) (key : String) (v : β) :
    (asetExisting l key v).map Prod.fst = l.map Prod.fst := by
  induction l with
  | nil => rfl
  | cons p rest ih =>
    obtain ⟨a, b⟩ := p
    by_cases h : a = key
    · rw [asetExisting, List.map_cons, if_pos h]
      show key :: (asetExisting rest key v).map Prod.fst = a :: rest.map Prod.fst
      rw [ih, h]
    · rw [asetExisting, List.map_cons, if_neg h]
      show a :: (asetExisting rest key v).map Prod.fst = a :: rest.map Prod.fst
      rw [ih]

/-! ## Data model (`src/chimerapy/engine/states.py`) -/

/-- The nine `Literal` values the `fsm` field of `NodeState` may hold. -/
inductive FSM
  | NULL
  | INITIALIZED
  | CONNECTED
  | READY
  | PREVIEWING
  | RECORDING
  | STOPPED
  | SAVED
  | SHUTDOWN
  deriving DecidableEq, Repr

/-- Concurrency style of a registered method.
Modelled from the spec: `src/chimerapy/engine/node/registered_method.py` is not
among the provided sources; the spec gives
`style: concurrent|blocking|reset`. -/
inductive RegisteredMethodStyle
  | concurrent
  | blocking
  | reset
  deriving DecidableEq, Repr

/-- A registered method record.
Modelled from the spec: `src/chimerapy/engine/node/registered_method.py` is not
among the provided sources; the spec gives
`registered_methods maps method name → \x7bparams: map<name, type-hint-string>,
style\x7d`.  Its content is never inspected by the properties below. -/
structure RegisteredMethod where
  params : List (String × String) := []
  style : RegisteredMethodStyle := .concurrent
  deriving DecidableEq, Repr

/-- `NodeState` dataclass: `id`, `name = ""`, `port = 0`, `fsm = "NULL"`,
`registered_methods = {}`. -/
structure NodeState where
  id : String
  name : String := ""
  port : Nat := 0
  fsm : FSM := .NULL
  registered_methods : List (String × RegisteredMethod) := []
  deriving DecidableEq, Repr

/-- `NodeState(id=...)`: construction with only the `id` argument, every other
field taking its dataclass default. -/
def NodeState.ofId (id : String) : NodeState := { id := id }

/-- `WorkerState` dataclass: `id`, `name`, `port = 0`, `ip = ""`,
`nodes = {}`. -/
structure WorkerState where
  id : String
  name : String
  port : Nat := 0
  ip : String := ""
  nodes : List (String × NodeState) := []
  deriving DecidableEq, Repr

/-! ## Worker HTTP server (`src/chimerapy/engine/worker/http_server_service.py`)

Each `aiohttp` handler is a pure function of the `WorkerState` it holds and
the parsed request, returning a `HandlerOut`. -/

/-- One entry of the node-address table: `{"host": ..., "port": ...}`. -/
structure NodeHostPort where
  host : String
  port : Nat
  deriving DecidableEq, Repr

/-- `node_server_data` as built by `_create_node_server_data`:
`{"id": ..., "nodes": {node_id: {host, port}}}`. -/
structure NodeServerData where
  id : String
  nodes : List (String × NodeHostPort)
  deriving DecidableEq, Repr

/-- JSON body of the `GET /nodes/server_data` response:
`{"success": ..., "node_server_data": ...}`. -/
structure ServerDataBody where
  success : Bool
  node_server_data : NodeServerData
  deriving DecidableEq, Repr

/-- Pickled body of the `GET /nodes/gather` response:
`{"id": ..., "node_data": ...}` (the dict values of `node_data` are never
populated by the source, so `String` stands for the payload type). -/
structure GatherBody where
  id : String
  node_data : List (String × String)
  deriving DecidableEq, Repr

/-- The responses the Worker's routes produce: `web.HTTPOk()` (status 200),
`web.HTTPError()` (status 500), `web.json_response(...)` (status 200) and
`web.Response(body=pickle.dumps(...))` (status 200). -/
inductive Response
  | httpOk
  | httpError
  | jsonBody (body : ServerDataBody)
  | pickledBody (body : GatherBody)
  deriving DecidableEq, Repr

/-- HTTP status code of each response constructor. -/
def Response.status : Response → Nat
  | .httpOk => 200
  | .httpError => 500
  | .jsonBody _ => 200
  | .pickledBody _ => 200

/-- Result of running one route handler: the worker state afterwards, the
events the handler awaited on the event bus (`await eventbus.asend`, in
dispatch order, by type string), the events it only scheduled as background
tasks (`asyncio.create_task(eventbus.asend(...))`, never awaited inside the
handler), and the HTTP response it returned. -/
structure HandlerOut where
  state : WorkerState
  events : List String
  scheduled : List String
  response : Response
  deriving DecidableEq, Repr

/-- One sender's file-transfer record for an uploaded file, as tracked by the
networking `Server` (`{dst_filepath, complete, ...}`; only `complete` matters
to the routes). -/
structure FileTransferRecord where
  complete : Bool := false
  deriving DecidableEq, Repr

namespace HttpServerService

/-- `start`: serve, then write the server's actual host and port into
`self.state.ip` / `self.state.port`, then await
`eventbus.asend(Event("after_server_startup"))`.  Returns the mutated state
and the awaited events. -/
def start (s : WorkerState) (host : String) (port : Nat) :
    WorkerState × List String :=
  ({ s with ip := host, port := port }, ["after_server_startup"])

/-- `_create_node_server_data`: `{"id": state.id, "nodes": {node_id:
{"host": state.ip, "port": node_state.port}}}` over `state.nodes.items()`. -/
def _create_node_server_data (s : WorkerState) : NodeServerData :=
  { id := s.id,
    nodes := s.nodes.map (fun p => (p.1, ⟨s.ip, p.2.port⟩)) }

/-- `POST /packages/load`: for each named package, wait (up to
`worker.timeout.package-delivery`) for `"<pkg>.zip"` to appear in the
server's `file_transfer_records["Manager"]`; if it never appears, return
`web.HTTPError()` at once.  The second wait (for `complete`) only logs on
failure and the handler proceeds regardless; the `sys.path` insertion and
the filesystem assertion on the destination path are effects outside the
modelled state.  `records` is the stable contents of
`file_transfer_records["Manager"]` while the handler runs, so a wait
succeeds exactly when its condition holds of `records`. -/
def _async_load_sent_packages (s : WorkerState)
    (records : List (String × FileTransferRecord)) :
    List String → HandlerOut
  | [] => ⟨s, [], [], .httpOk⟩
  | sent_package :: rest =>
    match alookup records (sent_package ++ ".zip") with
    | none => ⟨s, [], [], .httpError⟩
    | some _ => _async_load_sent_packages s records rest

/-- `POST /nodes/create`: emit `create_node` (payload: the unpickled
NodeConfig), reply `HTTPOk`. -/
def _async_create_node_route (s : WorkerState) (node_config : String) :
    HandlerOut :=
  ⟨s, ["create_node"], [], .httpOk⟩

/-- `POST /nodes/destroy`: emit `destroy_node` (payload: `msg["id"]`),
reply `HTTPOk`. -/
def _async_destroy_node_route (s : WorkerState) (node_id : String) :
    HandlerOut :=
  ⟨s, ["destroy_node"], [], .httpOk⟩

/-- `GET /nodes/server_data`: reply with
`json_response({"success": True, "node_server_data": ...})`. -/
def _async_report_node_server_data (s : WorkerState) : HandlerOut :=
  ⟨s, [], [], .jsonBody ⟨true, _create_node_server_data s⟩⟩

/-- `POST /nodes/server_data`: emit `process_node_server_data` (payload: the
request JSON), reply `HTTPOk`. -/
def _async_process_node_server_data (s : WorkerState) (msg : String) :
    HandlerOut :=
  ⟨s, ["process_node_server_data"], [], .httpOk⟩

/-- `POST /nodes/step`: emit `step`, reply `HTTPOk`. -/
def _async_step_route (s : WorkerState) : HandlerOut :=
  ⟨s, ["step"], [], .httpOk⟩

/-- `POST /nodes/start`: emit `start_nodes`, reply `HTTPOk`. -/
def _async_start_nodes_route (s : WorkerState) : HandlerOut :=
  ⟨s, ["start_nodes"], [], .httpOk⟩

/-- `POST /nodes/record`: emit `record`, reply `HTTPOk`. -/
def _async_record_route (s : WorkerState) : HandlerOut :=
  ⟨s, ["record"], [], .httpOk⟩

/-- `POST /nodes/registered_methods`: emit `registered_method` (payload:
`RegisteredMethodEvent(node_id, method_name, params)`), reply `HTTPOk`. -/
def _async_request_method_route (s : WorkerState)
    (node_id method_name : String) (params : List (String × String)) :
    HandlerOut :=
  ⟨s, ["registered_method"], [], .httpOk⟩

/-- `POST /nodes/stop`: emit `stop_nodes`, reply `HTTPOk`. -/
def _async_stop_nodes_route (s : WorkerState) : HandlerOut :=
  ⟨s, ["stop_nodes"], [], .httpOk⟩

/-- `GET /nodes/gather`: emit `node_gather`, reply with the pickled dict
`{"id": state.id, "node_data": {}}` (the source logs that gather does not
work and always leaves `node_data` empty). -/
def _async_report_node_gather (s : WorkerState) : HandlerOut :=
  ⟨s, ["node_gather"], [], .pickledBody ⟨s.id, []⟩⟩

/-- `POST /nodes/collect`: emit `collect`, then emit `send_archive`, reply
`HTTPOk`. -/
def _async_collect (s : WorkerState) : HandlerOut :=
  ⟨s, ["collect", "send_archive"], [], .httpOk⟩

/-- `POST /shutdown`: append `asyncio.create_task(eventbus.asend(
Event("shutdown")))` to `self.tasks` and reply `HTTPOk` without awaiting
the dispatch. -/
def _async_shutdown_route (s : WorkerState) : HandlerOut :=
  ⟨s, [], ["shutdown"], .httpOk⟩

/-- WS `STATUS` handler: decode the `NodeState` from `msg["data"]`; if its
id is a key of `state.nodes`, overwrite that entry; otherwise do nothing. -/
def _async_node_status_update (s : WorkerState) (node_state : NodeState) :
    WorkerState :=
  if (alookup s.nodes node_state.id).isSome then
    { s with nodes := asetExisting s.nodes node_state.id node_state }
  else s

/-- WS `REPORT_GATHER` handler: decode the `NodeState` from
`msg["data"]["state"]`; if its id is a key of `state.nodes`, overwrite that
entry; then emit `update_gather` (payload: node id and latest value). -/
def _async_node_report_gather (s : WorkerState) (node_state : NodeState) :
    WorkerState × List String :=
  (if (alookup s.nodes node_state.id).isSome then
    { s with nodes := asetExisting s.nodes node_state.id node_state }
   else s, ["update_gather"])

/-- WS `REPORT_RESULTS` handler: emit `update_results` (payload: node id and
output); the state is untouched. -/
def _async_node_report_results (s : WorkerState) (node_id : String) :
    WorkerState × List String :=
  (s, ["update_results"])

end HttpServerService

/-! ## ServiceGroup (`src/chimerapy/service.py`) -/

namespace ServiceGroup

/-- `ServiceGroup.apply(method_name, order)`: with a truthy (non-empty)
`order`, call the named method on `self.data[s_name]` for each `s_name` in
`order` that is a key of `data`, in the order given; otherwise call it on
every member in insertion order.  The value is the sequence of members on
which the method is invoked, in call order. -/
def apply {σ : Type} (data : List (String × σ)) (order : List String) :
    List σ :=
  if order.isEmpty then data.map Prod.snd
  else order.filterMap (fun s_name => alookup data s_name)

/-- `ServiceGroup.async_apply(method_name, order)`: same member selection
and ordering as `apply`, but each call is wrapped in
`asyncio.create_task` and the tasks are gathered.  The value is the
sequence of members for which a task is created, in creation order. -/
def async_apply {σ : Type} (data : List (String × σ)) (order : List String) :
    List σ :=
  if order.isEmpty then data.map Prod.snd
  else order.filterMap (fun s_name => alookup data s_name)

end ServiceGroup

/-! ## Worker CLI entry point (`src/chimerapy/entry/worker.py`) -/

namespace entry

/-- Which of the six declared flags a command line supplies, with the value
given for each supplied flag. -/
structure CLIInput where
  name : Option String := none
  ip : Option String := none
  port : Option Int := none
  id : Option String := none
  wport : Option Int := none
  delete : Option Bool := none
  deriving DecidableEq, Repr

/-- The argparse namespace after a successful parse. -/
structure ParsedNamespace where
  name : String
  ip : String
  port : Int
  id : Option String
  wport : Int
  delete : Bool
  deriving DecidableEq, Repr

/-- The arguments `main` passes to the `Worker` constructor:
`Worker(name=..., delete_temp=..., id=...)`. -/
structure WorkerCtorCall where
  name : String
  delete_temp : Bool
  id : Option String
  deriving DecidableEq, Repr

/-- The arguments `main` passes to `worker.connect(host=..., port=...)`. -/
structure ConnectCall where
  host : String
  port : Int
  deriving DecidableEq, Repr

/-- `parser.parse_args()` for the flag set declared in `main`: `--name`,
`--ip`, `--port` required (argparse exits with status 2 when one is
missing, modelled as `none`); `--id` defaults to `None`, `--wport` to
`8080`, `--delete` to `True`. -/
def parse_args (args : CLIInput) : Option ParsedNamespace :=
  match args.name, args.ip, args.port with
  | some n, some ipv, some p =>
      some { name := n, ip := ipv, port := p, id := args.id,
             wport := (args.wport).getD 8080, delete := (args.delete).getD true }
  | _, _, _ => none

/-- `main`: parse the flags, then construct
`Worker(name=d_args["name"], delete_temp=d_args["delete"], id=d_args["id"])`
and call `worker.connect(host=d_args["ip"], port=d_args["port"])`. -/
def main (args : CLIInput) : Option (WorkerCtorCall × ConnectCall) :=
  (parse_args args).map (fun d =>
    ({ name := d.name, delete_temp := d.delete, id := d.id },
     { host := d.ip, port := d.port }))

end entry

/-! ## Shared lemmas -/

theorem alookup_map_val {β γ : Type} (f : β → γ) (l : List (String × β)) (k : String) :
    alookup (l.map (fun p => (p.1, f p.2))) k = (alookup l k).map f := by
  induction l with
  | nil => rfl
  | cons p rest ih =>
    obtain ⟨a, b⟩ := p
    by_cases h : a = k
    · simp [alookup, h]
    · simp [alookup, h, ih]

theorem load_sent_packages_spec (s : WorkerState)
    (records : List (String × FileTransferRecord)) (pkgs : List String) :
    (HttpServerService._async_load_sent_packages s records pkgs).state = s ∧
    (HttpServerService._async_load_sent_packages s records pkgs).events = [] ∧
    (HttpServerService._async_load_sent_packages s records pkgs).scheduled = [] ∧
    (HttpServerService._async_load_sent_packages s records pkgs).response =
      (if pkgs.all (fun p => (alookup records (p ++ ".zip")).isSome)
       then Response.httpOk else Response.httpError) := by
  induction pkgs with
  | nil => exact ⟨rfl, rfl, rfl, rfl⟩
  | cons p rest ih =>
    cases h : alookup records (p ++ ".zip") with
    | none =>
      refine ⟨?_, ?_, ?_, ?_⟩ <;>
        simp [HttpServerService._async_load_sent_packages, h]
    | some r =>
      simp only [HttpServerService._async_load_sent_packages, h, List.all_cons,
        Option.isSome_some, Bool.true_and]
      exact ih

/-! ## Concrete states used in closed instances -/

/-- A fresh worker state with no nodes. -/
def exWorkerState : WorkerState := { id := "worker-0", name := "local" }

/-- A worker state hosting two nodes. -/
def exNodesState : WorkerState :=
  { id := "worker-1", name := "host-a", ip := "10.1.1.5",
    nodes := [("n1", NodeState.ofId "n1"), ("n2", NodeState.ofId "n2")] }

/-- A node status report for the node id `n1`. -/
def exReport : NodeState := { id := "n1", name := "camera", port := 5555, fsm := .READY }

/-! ## Claims -/

open HttpServerService

/-- Claim C2: `GET /nodes/server_data` mutates nothing, emits nothing, and
returns `{success: true, node_server_data}` where `node_server_data` carries
the worker's id and maps exactly the node ids of `WorkerState.nodes` to
`{host: worker ip, port: node port}`. -/
theorem C2_theorem (s : WorkerState) :
    (_async_report_node_server_data s).state = s ∧
    (_async_report_node_server_data s).events = [] ∧
    (_async_report_node_server_data s).scheduled = [] ∧
    (_async_report_node_server_data s).response =
      Response.jsonBody ⟨true, _create_node_server_data s⟩ ∧
    (_create_node_server_data s).id = s.id ∧
    (_create_node_server_data s).nodes.map Prod.fst = s.nodes.map Prod.fst ∧
    ∀ nid, alookup (_create_node_server_data s).nodes nid =
      (alookup s.nodes nid).map (fun nst => ⟨s.ip, nst.port⟩) := by
  refine ⟨rfl, rfl, rfl, rfl, rfl, ?_, ?_⟩
  · show (s.nodes.map _).map Prod.fst = s.nodes.map Prod.fst
    rw [List.map_map]
    rfl
  · intro nid
    exact alookup_map_val
      (fun nst => ({ host := s.ip, port := nst.port } : NodeHostPort)) s.nodes nid

/-- Claim C3: `POST /nodes/collect` emits exactly the two events `collect`
then `send_archive`, in that order, schedules nothing else, and replies
HTTP 200. -/
theorem C3_theorem (s : WorkerState) :
    (_async_collect s).events = ["collect", "send_archive"] ∧
    (_async_collect s).scheduled = [] ∧
    (_async_collect s).response.status = 200 ∧
    (_async_collect s).state = s :=
  ⟨rfl, rfl, rfl, rfl⟩

/-- Claim C5: `GET /nodes/gather` emits a `node_gather` event and returns the
pickled body `{id: worker id, node_data}` with `node_data` always the empty
map, whatever nodes the worker hosts. -/
theorem C5_theorem (s : WorkerState) :
    (_async_report_node_gather s).events = ["node_gather"] ∧
    (_async_report_node_gather s).scheduled = [] ∧
    (_async_report_node_gather s).response = Response.pickledBody ⟨s.id, []⟩ ∧
    (_async_report_node_gather s).state = s :=
  ⟨rfl, rfl, rfl, rfl⟩

/-- Claim C6: `POST /shutdown` replies HTTP 200 having awaited no event
dispatch at all; the `shutdown` dispatch is only scheduled as a background
task, so the response is not sequenced after it. -/
theorem C6_theorem (s : WorkerState) :
    (_async_shutdown_route s).events = [] ∧
    (_async_shutdown_route s).scheduled = ["shutdown"] ∧
    (_async_shutdown_route s).response.status = 200 ∧
    (_async_shutdown_route s).state = s :=
  ⟨rfl, rfl, rfl, rfl⟩

/-- Claim C9: a `NodeState` carries exactly the five declared fields, its
`fsm` is one of the nine literals, and `NodeState(id=...)` defaults to
`fsm = NULL`, `port = 0`, `name = ""`, empty `registered_methods`. -/
theorem C9_theorem (ns : NodeState) (i : String) :
    (ns.fsm = FSM.NULL ∨ ns.fsm = FSM.INITIALIZED ∨ ns.fsm = FSM.CONNECTED ∨
     ns.fsm = FSM.READY ∨ ns.fsm = FSM.PREVIEWING ∨ ns.fsm = FSM.RECORDING ∨
     ns.fsm = FSM.STOPPED ∨ ns.fsm = FSM.SAVED ∨ ns.fsm = FSM.SHUTDOWN) ∧
    (NodeState.ofId i).fsm = FSM.NULL ∧
    (NodeState.ofId i).port = 0 ∧
    (NodeState.ofId i).name = "" ∧
    (NodeState.ofId i).registered_methods = [] ∧
    ns = { id := ns.id, name := ns.name, port := ns.port, fsm := ns.fsm,
           registered_methods := ns.registered_methods } := by
  obtain ⟨nid, nname, nport, nfsm, nrm⟩ := ns
  refine ⟨?_, rfl, rfl, rfl, rfl, rfl⟩
  cases nfsm <;> simp

/-- Claim C1 fails as stated: the `start` operation of `HttpServerService`
does write the `WorkerState` it holds — here it changes the `ip` field of a
concrete fresh state. -/
theorem C1_counterexample :
    (HttpServerService.start exWorkerState "10.0.0.7" 9000).1 ≠ exWorkerState := by
  decide

/-- Claim C1 (amended): every HTTP route handler leaves the `WorkerState`
unchanged, only emitting or scheduling events; the `start` operation,
however, writes the served host and port into `state.ip` and `state.port`,
and the `STATUS` / `REPORT_GATHER` WebSocket handlers may overwrite the
entry of an already-present node id in `state.nodes` — never adding or
removing an entry and never touching the scalar fields. -/
theorem C1_amended_theorem (s : WorkerState)
    (host node_config node_id msg method_name : String)
    (params : List (String × String)) (port : Nat)
    (records : List (String × FileTransferRecord)) (pkgs : List String)
    (ns : NodeState) :
    (_async_create_node_route s node_config).state = s ∧
    (_async_destroy_node_route s node_id).state = s ∧
    (_async_report_node_server_data s).state = s ∧
    (_async_process_node_server_data s msg).state = s ∧
    (_async_report_node_gather s).state = s ∧
    (_async_collect s).state = s ∧
    (_async_step_route s).state = s ∧
    (_async_start_nodes_route s).state = s ∧
    (_async_record_route s).state = s ∧
    (_async_request_method_route s node_id method_name params).state = s ∧
    (_async_stop_nodes_route s).state = s ∧
    (_async_load_sent_packages s records pkgs).state = s ∧
    (_async_shutdown_route s).state = s ∧
    (HttpServerService.start s host port).1 = { s with ip := host, port := port } ∧
    (_async_node_status_update s ns).id = s.id ∧
    (_async_node_status_update s ns).name = s.name ∧
    (_async_node_status_update s ns).ip = s.ip ∧
    (_async_node_status_update s ns).port = s.port ∧
    (_async_node_status_update s ns).nodes.map Prod.fst = s.nodes.map Prod.fst ∧
    (_async_node_report_gather s ns).1 = _async_node_status_update s ns ∧
    (_async_node_report_results s node_id).1 = s := by
  refine ⟨rfl, rfl, rfl, rfl, rfl, rfl, rfl, rfl, rfl, rfl, rfl,
    (load_sent_packages_spec s records pkgs).1, rfl, rfl, ?_, ?_, ?_, ?_, ?_, rfl, rfl⟩ <;>
    unfold _async_node_status_update <;> split <;>
      first
        | rfl
        | exact keys_asetExisting s.nodes ns.id ns

/-- Claim C4 fails as stated: when a requested package never appears in the
Manager's file-transfer records, `POST /packages/load` replies
`web.HTTPError()`, whose HTTP status is 500, not an HTTP 200 response with
a `{success: false, error}` body. -/
theorem C4_counterexample :
    (_async_load_sent_packages exWorkerState [] ["cpackage"]).response =
      Response.httpError ∧
    Response.httpError.status ≠ 200 := by
  decide

/-- Claim C4 (amended): if any package named in a `POST /packages/load`
request never appears in the server's Manager file-transfer records within
`worker.timeout.package-delivery`, the handler replies `web.HTTPError()`
(HTTP 500) with no structured error body; when every package appears, the
handler replies HTTP 200 (a package that appears but never reports
`complete` is merely logged and loaded anyway); the state is untouched
either way. -/
theorem C4_amended_theorem (s : WorkerState)
    (records : List (String × FileTransferRecord)) (pkgs : List String) :
    ((∃ p, p ∈ pkgs ∧ alookup records (p ++ ".zip") = none) →
      (_async_load_sent_packages s records pkgs).response = Response.httpError ∧
      (_async_load_sent_packages s records pkgs).response.status = 500) ∧
    ((∀ p, p ∈ pkgs → (alookup records (p ++ ".zip")).isSome = true) →
      (_async_load_sent_packages s records pkgs).response = Response.httpOk) ∧
    (_async_load_sent_packages s records pkgs).state = s := by
  obtain ⟨hs, he, hsch, hr⟩ := load_sent_packages_spec s records pkgs
  refine ⟨?_, ?_, hs⟩
  · rintro ⟨p, hmem, hnone⟩
    cases hb : pkgs.all (fun q => (alookup records (q ++ ".zip")).isSome) with
    | false =>
      rw [hr, hb]
      exact ⟨rfl, rfl⟩
    | true =>
      exfalso
      have := List.all_eq_true.mp hb p hmem
      rw [hnone] at this
      simp at this
  · intro hall
    rw [hr, List.all_eq_true.mpr (fun p hp => hall p hp)]
    rfl

/-- Witness for the amended claim C4 at a concrete input: one package, empty
records, hence `HTTPError` with status 500. -/
theorem C4_witness :
    (_async_load_sent_packages exWorkerState [] ["chimerapy-pkg"]).response =
      Response.httpError ∧
    (_async_load_sent_packages exWorkerState [] ["chimerapy-pkg"]).response.status =
      500 :=
  (C4_amended_theorem exWorkerState [] ["chimerapy-pkg"]).1
    ⟨"chimerapy-pkg", by decide, rfl⟩

/-- Claim C7 fails as stated: with the non-empty order `["a"]` on a group
with members `a` and `b`, only `a`'s service is invoked — member `b` is
skipped, so not every member of the group is invoked. -/
theorem C7_counterexample :
    ServiceGroup.apply [("a", "svcA"), ("b", "svcB")] ["a"] = ["svcA"] ∧
    ¬ ("svcB" ∈ ServiceGroup.apply [("a", "svcA"), ("b", "svcB")] ["a"]) := by
  decide

/-- Claim C7 (amended): with an empty order, `apply` invokes the method once
on every member in insertion order; with a non-empty order it invokes the
method exactly on the order's names that are keys of the group, in the
order given — members not named are skipped and unknown names are ignored;
`async_apply` selects and orders its tasks identically. -/
theorem C7_amended_theorem {σ : Type} (data : List (String × σ))
    (order : List String) :
    (order = [] → ServiceGroup.apply data order = data.map Prod.snd) ∧
    (order ≠ [] →
      ServiceGroup.apply data order =
        order.filterMap (fun s_name => alookup data s_name) ∧
      ∀ svc, svc ∈ ServiceGroup.apply data order ↔
        ∃ n ∈ order, alookup data n = some svc) ∧
    ServiceGroup.async_apply data order = ServiceGroup.apply data order := by
  refine ⟨?_, ?_, rfl⟩
  · intro h
    subst h
    rfl
  · intro h
    have hne : order.isEmpty = false := by
      cases order with
      | nil => exact absurd rfl h
      | cons a l => rfl
    constructor
    · simp [ServiceGroup.apply, hne]
    · intro svc
      simp [ServiceGroup.apply, hne, List.mem_filterMap]

/-- Witness for the amended claim C7 at a concrete input: order
`["z", "x"]` on a three-member group invokes exactly `z` then `x`. -/
theorem C7_witness :
    ServiceGroup.apply [("x", (1 : Nat)), ("y", 2), ("z", 3)] ["z", "x"] = [3, 1] := by
  have h :=
    ((C7_amended_theorem [("x", (1 : Nat)), ("y", 2), ("z", 3)] ["z", "x"]).2.1
      (by decide)).1
  exact h.trans (by decide)

/-- Claim C8: the Worker CLI requires `--name`, `--ip`, `--port` (omitting
any is an invalid-args failure), defaults `--wport` to 8080 and `--delete`
to true, and on valid arguments constructs
`Worker(name, delete_temp, id)` and connects to `host = --ip`,
`port = --port`. -/
theorem C8_theorem (args : entry.CLIInput) :
    ((args.name = none ∨ args.ip = none ∨ args.port = none) →
      entry.main args = none) ∧
    (∀ n ipv p, args.name = some n → args.ip = some ipv → args.port = some p →
      entry.parse_args args =
        some { name := n, ip := ipv, port := p, id := args.id,
               wport := (args.wport).getD 8080,
               delete := (args.delete).getD true } ∧
      entry.main args =
        some ({ name := n, delete_temp := (args.delete).getD true, id := args.id },
              { host := ipv, port := p })) := by
  constructor
  · intro h
    rcases hn : args.name with _ | n1 <;> rcases hi : args.ip with _ | i1 <;>
      rcases hp : args.port with _ | p1 <;>
      simp [entry.main, entry.parse_args, hn, hi, hp] <;>
      rcases h with h | h | h <;> simp_all
  · intro n ipv p hn hi hp
    simp [entry.main, entry.parse_args, hn, hi, hp]

/-- Witness for claim C8 at a concrete command line: required flags only,
so `--wport`/`--delete`/`--id` take their defaults and the Worker is
constructed and connected accordingly. -/
theorem C8_witness :
    entry.main { name := some "w0", ip := some "10.0.0.2", port := some 9000 } =
      some ({ name := "w0", delete_temp := true, id := none },
            { host := "10.0.0.2", port := 9000 }) :=
  ((C8_theorem { name := some "w0", ip := some "10.0.0.2", port := some 9000 }).2
    "w0" "10.0.0.2" 9000 rfl rfl rfl).2

/-- Claim C10: when the node id carried by a `STATUS` or `REPORT_GATHER`
WebSocket message is unknown, the nodes map (indeed the whole state) is
unchanged — no entry is ever created; when it is known, that entry is
replaced wholesale by the reported `NodeState`, every other entry and the
key set being untouched. -/
theorem C10_theorem (s : WorkerState) (ns : NodeState) :
    (alookup s.nodes ns.id = none →
      _async_node_status_update s ns = s ∧
      (_async_node_report_gather s ns).1 = s) ∧
    ((alookup s.nodes ns.id).isSome = true →
      alookup (_async_node_status_update s ns).nodes ns.id = some ns ∧
      (∀ k, k ≠ ns.id →
        alookup (_async_node_status_update s ns).nodes k = alookup s.nodes k) ∧
      (_async_node_status_update s ns).nodes.map Prod.fst =
        s.nodes.map Prod.fst) ∧
    (_async_node_report_gather s ns).1 = _async_node_status_update s ns ∧
    (_async_node_report_gather s ns).2 = ["update_gather"] := by
  refine ⟨?_, ?_, rfl, rfl⟩
  · intro h
    unfold _async_node_status_update _async_node_report_gather
    rw [h]
    exact ⟨rfl, rfl⟩
  · intro h
    unfold _async_node_status_update
    rw [if_pos h]
    obtain ⟨v, hv⟩ := Option.isSome_iff_exists.mp h
    refine ⟨?_, ?_, keys_asetExisting s.nodes ns.id ns⟩
    · rw [alookup_asetExisting_eq, hv]
      rfl
    · intro k hk
      exact alookup_asetExisting_ne s.nodes ns.id k ns hk

/-- Witness for claim C10 at a concrete input: a status report for the known
node `n1` replaces its entry and leaves the entry of `n2` untouched. -/
theorem C10_witness :
    alookup (_async_node_status_update exNodesState exReport).nodes "n1" =
      some exReport ∧
    alookup (_async_node_status_update exNodesState exReport).nodes "n2" =
      some (NodeState.ofId "n2") := by
  have h := (C10_theorem exNodesState exReport).2.1 (by decide)
  exact ⟨h.1, (h.2.1 "n2" (by decide)).trans (by decide)⟩

end ChimeraPy
